import Mathlib

/-
Verification development for the mode-aware type-coercion and boundary-safety
core of a CEL (Common Expression Language) host front end.  The core itself
lives in a systems-language extension module; the repository ships only its
Python-facing declarations and its test suite.  The definitions below are
therefore modelled from the specification of that core (data model, promotion
engine, function dispatcher, error taxonomy translator), with IEEE doubles
modelled as exact rationals (every numeric literal exercised here is exactly
representable) and host exceptions modelled as message-carrying failures.
-/

namespace CelSpec

/-- Modelled from the spec: the fixed external error taxonomy
(ParseFailure, CompileFailure, UndefinedReference, TypeMismatch,
FunctionError, InvalidArgument). -/
inductive ErrKind where
  | parseFailure
  | compileFailure
  | undefinedReference
  | typeMismatch
  | functionError
  | invalidArgument
deriving DecidableEq

/-- Modelled from the spec: an ErrorRecord is a kind plus a message. -/
structure CelError where
  kind : ErrKind
  message : String
deriving DecidableEq

/-- Modelled from the spec: binary operators of the expression tree.
Arithmetic operators are strictly typed; comparison operators are exempt
from same-type requirements. -/
inductive BinOp where
  | add
  | sub
  | mul
  | div
  | mod
  | lt
  | le
  | gt
  | ge
  | eq
  | ne
deriving DecidableEq

/-- Modelled from the spec: the comprehension-style list operations
(map, filter, all) whose lambda bodies the promotion engine does not
rewrite. -/
inductive CompOp where
  | mapC
  | filterC
  | allC
deriving DecidableEq

mutual
/-- Modelled from the spec: the parsed expression tree with tagged node
variants Literal{Int|UInt|Double|String|Bytes|Bool|Null}, Ident, Call,
BinaryOp, List, Map, Ternary, unary logical negation, the short-circuit
logical connectives, and comprehension nodes.  The external parser
collaborator produces these trees; promotion is a rewrite over them,
never over raw source text. -/
inductive Expr where
  | intLit (n : Int)
  | uintLit (n : Nat)
  | doubleLit (q : Rat)
  | strLit (s : String)
  | bytesLit (b : List Nat)
  | boolLit (b : Bool)
  | nullLit
  | ident (name : String)
  | unaryNot (e : Expr)
  | andE (a b : Expr)
  | orE (a b : Expr)
  | ternary (c t f : Expr)
  | binop (op : BinOp) (a b : Expr)
  | call (fname : String) (args : ExprList)
  | listE (elems : ExprList)
  | mapE (entries : ExprPairList)
  | comp (recv : Expr) (op : CompOp) (v : String) (body : Expr)
/-- Expression sequences (call arguments, list-literal elements). -/
inductive ExprList where
  | nil
  | cons (e : Expr) (es : ExprList)
/-- Key/value expression pairs of a map literal. -/
inductive ExprPairList where
  | nil
  | cons (k v : Expr) (es : ExprPairList)
end

mutual
/-- Modelled from the spec: the tagged CEL value union
{Null, Bool, Int64, UInt64, Double64, String, Bytes, List, Map}.
Doubles are carried as exact rationals; Timestamp, Duration and the
optional wrapper are not exercised by the properties below and are
omitted from the modelled fragment. -/
inductive Value where
  | null
  | bool (b : Bool)
  | int (n : Int)
  | uint (n : Nat)
  | double (q : Rat)
  | str (s : String)
  | bytes (b : List Nat)
  | list (vs : ValueList)
  | map (entries : ValuePairList)
/-- Value sequences. -/
inductive ValueList where
  | nil
  | cons (v : Value) (vs : ValueList)
/-- Key/value pairs of a map value. -/
inductive ValuePairList where
  | nil
  | cons (k v : Value) (vs : ValuePairList)
end

/-- Modelled from the spec: a registered host callable receives the
converted argument list positionally and either returns a value or
raises; a raised host exception is carried as its message string. -/
def HostFn : Type := ValueList → Except String Value

/-- Modelled from the spec: the Context binding environment, a variable
table and a function table. -/
structure Ctx where
  vars : List (String × Value)
  funcs : List (String × HostFn)

/-- The empty Context. -/
def Ctx.empty : Ctx := ⟨[], []⟩

/-- Association-list lookup used by both Context tables. -/
def lookupAssoc {α : Type} : List (String × α) → String → Option α
  | [], _ => none
  | (k, v) :: rest, x => if k = x then some v else lookupAssoc rest x

/-- Extend the variable table with a comprehension binding. -/
def bindVar (ctx : Ctx) (name : String) (v : Value) : Ctx :=
  ⟨(name, v) :: ctx.vars, ctx.funcs⟩

/-- An apostrophe character, used verbatim inside diagnostic messages. -/
def squote : String := (Char.ofNat 39).toString

/-- Modelled from the spec: the message attached to an unresolved
identifier at evaluation time. -/
def undefinedMsg (name : String) : String :=
  "Undefined variable or function: " ++ squote ++ name ++ squote

/-- Modelled from the spec: the normalized message of a FunctionError,
embedding the registered name and the original exception message. -/
def funErrMsg (name msg : String) : String :=
  "Function " ++ squote ++ name ++ squote ++ " error: " ++ msg

/-- Emptiness test for value sequences. -/
def ValueList.isNil : ValueList → Bool
  | .nil => true
  | .cons _ _ => false

/-- Emptiness test for map-value entry sequences. -/
def ValuePairList.isNil : ValuePairList → Bool
  | .nil => true
  | .cons _ _ _ => false

/-- Append on value sequences. -/
def ValueList.append : ValueList → ValueList → ValueList
  | .nil, ws => ws
  | .cons v vs, ws => .cons v (vs.append ws)

/-- Modelled from the spec: truthiness used by the logical operators and
the ternary conditional.  Null, false, numeric zero, the empty string and
empty collections are falsy; everything else is truthy. -/
def truthy : Value → Bool
  | .null => false
  | .bool b => b
  | .int n => n != 0
  | .uint n => n != 0
  | .double q => q.num != 0
  | .str s => s != ""
  | .bytes b => !b.isEmpty
  | .list vs => !vs.isNil
  | .map es => !es.isNil

/-- Numeric view of a value, shared by the comparison operators, which
are exempt from same-type requirements. -/
def numQ : Value → Option Rat
  | .int n => some (mkRat n 1)
  | .uint n => some (mkRat n 1)
  | .double q => some q
  | _ => none

mutual
/-- Structural equality on values (same tag, equal payloads). -/
def valueEqB : Value → Value → Bool
  | .null, .null => true
  | .bool a, .bool b => a == b
  | .int a, .int b => a == b
  | .uint a, .uint b => a == b
  | .double a, .double b => a == b
  | .str a, .str b => a == b
  | .bytes a, .bytes b => a == b
  | .list a, .list b => valueListEqB a b
  | .map a, .map b => valuePairsEqB a b
  | _, _ => false
/-- Structural equality on value sequences. -/
def valueListEqB : ValueList → ValueList → Bool
  | .nil, .nil => true
  | .cons a as, .cons b bs => valueEqB a b && valueListEqB as bs
  | _, _ => false
/-- Structural equality on map-entry sequences. -/
def valuePairsEqB : ValuePairList → ValuePairList → Bool
  | .nil, .nil => true
  | .cons ka va as, .cons kb vb bs =>
      valueEqB ka kb && valueEqB va vb && valuePairsEqB as bs
  | _, _ => false
end

/-- Equality as tested by the == operator: numeric operands compare by
value across Int/UInt/Double, everything else structurally. -/
def valueEqHet (a b : Value) : Bool :=
  match numQ a, numQ b with
  | some x, some y => x == y
  | _, _ => valueEqB a b

/-- Human name of an arithmetic operator, used in mismatch messages. -/
def arithWord : BinOp → String
  | .add => "addition"
  | .sub => "subtraction"
  | .mul => "multiplication"
  | .div => "division"
  | .mod => "modulo"
  | _ => "comparison"

/-- Modelled from the spec: ordering comparisons, exempt from same-type
requirements: numeric operands compare as rationals, strings compare
lexicographically, anything else is a TypeMismatch. -/
def applyCmp (op : BinOp) (a b : Value) : Except CelError Value :=
  match numQ a, numQ b with
  | some x, some y =>
      match op with
      | .lt => .ok (.bool (decide (x < y)))
      | .le => .ok (.bool (decide (x ≤ y)))
      | .gt => .ok (.bool (decide (y < x)))
      | _ => .ok (.bool (decide (y ≤ x)))
  | _, _ =>
      match a, b with
      | .str s, .str t =>
          match op with
          | .lt => .ok (.bool (decide (s < t)))
          | .le => .ok (.bool (decide (s < t) || (s == t)))
          | .gt => .ok (.bool (decide (t < s)))
          | _ => .ok (.bool (decide (t < s) || (s == t)))
      | _, _ => .error ⟨.typeMismatch, "Unsupported comparison operation"⟩

/-- Signed-integer arithmetic (truncating division, Rust-style). -/
def intArith (op : BinOp) (x y : Int) : Except CelError Value :=
  match op with
  | .add => .ok (.int (x + y))
  | .sub => .ok (.int (x - y))
  | .mul => .ok (.int (x * y))
  | .div => if y = 0 then .error ⟨.invalidArgument, "division by zero"⟩
            else .ok (.int (x.tdiv y))
  | _ => if y = 0 then .error ⟨.invalidArgument, "modulo by zero"⟩
         else .ok (.int (x.tmod y))

/-- Unsigned-integer arithmetic. -/
def uintArith (op : BinOp) (x y : Nat) : Except CelError Value :=
  match op with
  | .add => .ok (.uint (x + y))
  | .sub => .ok (.uint (x - y))
  | .mul => .ok (.uint (x * y))
  | .div => if y = 0 then .error ⟨.invalidArgument, "division by zero"⟩
            else .ok (.uint (x / y))
  | _ => if y = 0 then .error ⟨.invalidArgument, "modulo by zero"⟩
         else .ok (.uint (x % y))

/-- Double arithmetic over the exact-rational model. -/
def doubleArith (op : BinOp) (x y : Rat) : Except CelError Value :=
  match op with
  | .add => .ok (.double (x + y))
  | .sub => .ok (.double (x - y))
  | .mul => .ok (.double (x * y))
  | .div => .ok (.double (x / y))
  | _ => .error ⟨.typeMismatch, "Unsupported modulo operation"⟩

/-- Modelled from the spec: strictly-typed binary dispatch of the external
interpreter.  Arithmetic never coerces Int and Double silently; a mixed
signed/unsigned pair names that mismatch; any other type pairing is an
Unsupported-operation TypeMismatch.  Comparisons go through applyCmp. -/
def applyBin (op : BinOp) (a b : Value) : Except CelError Value :=
  match op with
  | .eq => .ok (.bool (valueEqHet a b))
  | .ne => .ok (.bool (!valueEqHet a b))
  | .lt => applyCmp .lt a b
  | .le => applyCmp .le a b
  | .gt => applyCmp .gt a b
  | .ge => applyCmp .ge a b
  | _ =>
      match a, b with
      | .int x, .int y => intArith op x y
      | .uint x, .uint y => uintArith op x y
      | .double x, .double y => doubleArith op x y
      | .str s, .str t =>
          match op with
          | .add => .ok (.str (s ++ t))
          | _ => .error ⟨.typeMismatch,
              "Unsupported " ++ arithWord op ++ " operation"⟩
      | .list xs, .list ys =>
          match op with
          | .add => .ok (.list (xs.append ys))
          | _ => .error ⟨.typeMismatch,
              "Unsupported " ++ arithWord op ++ " operation"⟩
      | .int _, .uint _ =>
          .error ⟨.typeMismatch, "Cannot mix signed and unsigned integers"⟩
      | .uint _, .int _ =>
          .error ⟨.typeMismatch, "Cannot mix signed and unsigned integers"⟩
      | _, _ => .error ⟨.typeMismatch,
          "Unsupported " ++ arithWord op ++ " operation"⟩

/-- Modelled from the spec: the Function Dispatcher.  The callable is
applied positionally; any exception it raises is caught and re-raised as
a single FunctionError carrying the registered name and the original
message. -/
def dispatch (name : String) (fn : HostFn) (args : ValueList) :
    Except CelError Value :=
  match fn args with
  | .ok v => .ok v
  | .error msg => .error ⟨.functionError, funErrMsg name msg⟩

/-- Map keys are restricted to String, Int64, UInt64 and Bool. -/
def validKey : Value → Bool
  | .str _ => true
  | .int _ => true
  | .uint _ => true
  | .bool _ => true
  | _ => false

/-- Fail-fast effectful map over a value sequence. -/
def mapValues (f : Value → Except CelError Value) :
    ValueList → Except CelError ValueList
  | .nil => .ok .nil
  | .cons v vs =>
      match f v with
      | .error er => .error er
      | .ok w =>
          match mapValues f vs with
          | .error er => .error er
          | .ok ws => .ok (.cons w ws)

/-- Fail-fast filter of a value sequence by a truthiness predicate body. -/
def filterValues (f : Value → Except CelError Value) :
    ValueList → Except CelError ValueList
  | .nil => .ok .nil
  | .cons v vs =>
      match f v with
      | .error er => .error er
      | .ok w =>
          match filterValues f vs with
          | .error er => .error er
          | .ok ws => .ok (if truthy w then .cons v ws else ws)

/-- Fail-fast universal truthiness test over a value sequence. -/
def allValues (f : Value → Except CelError Value) :
    ValueList → Except CelError Bool
  | .nil => .ok true
  | .cons v vs =>
      match f v with
      | .error er => .error er
      | .ok w =>
          match allValues f vs with
          | .error er => .error er
          | .ok rest => .ok (truthy w && rest)

mutual
/-- Modelled from the spec: the strictly-typed tree evaluator of the
external interpreter collaborator, restricted to the node variants of the
modelled fragment.  Logical connectives short-circuit: the right operand
of a conjunction is only reached when the left is truthy, and of a
disjunction only when the left is falsy; the disjunction returns the
original left value when it is truthy.  Identifier lookup failures are
UndefinedReference; host-callable failures go through the Function
Dispatcher. -/
def evalE : Expr → Ctx → Except CelError Value
  | .intLit n, _ => .ok (.int n)
  | .uintLit n, _ => .ok (.uint n)
  | .doubleLit q, _ => .ok (.double q)
  | .strLit s, _ => .ok (.str s)
  | .bytesLit b, _ => .ok (.bytes b)
  | .boolLit b, _ => .ok (.bool b)
  | .nullLit, _ => .ok .null
  | .ident x, ctx =>
      match lookupAssoc ctx.vars x with
      | some v => .ok v
      | none => .error ⟨.undefinedReference, undefinedMsg x⟩
  | .unaryNot e, ctx =>
      match evalE e ctx with
      | .ok v => .ok (.bool (!truthy v))
      | .error er => .error er
  | .andE a b, ctx =>
      match evalE a ctx with
      | .error er => .error er
      | .ok va =>
          if truthy va then
            match evalE b ctx with
            | .ok vb => .ok (.bool (truthy vb))
            | .error er => .error er
          else .ok (.bool false)
  | .orE a b, ctx =>
      match evalE a ctx with
      | .error er => .error er
      | .ok va => if truthy va then .ok va else evalE b ctx
  | .ternary c t f, ctx =>
      match evalE c ctx with
      | .error er => .error er
      | .ok vc => if truthy vc then evalE t ctx else evalE f ctx
  | .binop op a b, ctx =>
      match evalE a ctx with
      | .error er => .error er
      | .ok va =>
          match evalE b ctx with
          | .error er => .error er
          | .ok vb => applyBin op va vb
  | .call f args, ctx =>
      match lookupAssoc ctx.funcs f with
      | none => .error ⟨.undefinedReference, undefinedMsg f⟩
      | some fn =>
          match evalArgs args ctx with
          | .error er => .error er
          | .ok vs => dispatch f fn vs
  | .listE es, ctx =>
      match evalArgs es ctx with
      | .error er => .error er
      | .ok vs => .ok (.list vs)
  | .mapE ps, ctx =>
      match evalPairs ps ctx with
      | .error er => .error er
      | .ok vps => .ok (.map vps)
  | .comp recv op v body, ctx =>
      match evalE recv ctx with
      | .error er => .error er
      | .ok (.list vs) =>
          match op with
          | .mapC =>
              match mapValues (fun w => evalE body (bindVar ctx v w)) vs with
              | .error er => .error er
              | .ok ws => .ok (.list ws)
          | .filterC =>
              match filterValues (fun w => evalE body (bindVar ctx v w)) vs with
              | .error er => .error er
              | .ok ws => .ok (.list ws)
          | .allC =>
              match allValues (fun w => evalE body (bindVar ctx v w)) vs with
              | .error er => .error er
              | .ok b => .ok (.bool b)
      | .ok _ => .error ⟨.typeMismatch, "Unsupported comprehension target"⟩
/-- Evaluate an expression sequence left to right, failing fast. -/
def evalArgs : ExprList → Ctx → Except CelError ValueList
  | .nil, _ => .ok .nil
  | .cons e es, ctx =>
      match evalE e ctx with
      | .error er => .error er
      | .ok v =>
          match evalArgs es ctx with
          | .error er => .error er
          | .ok vs => .ok (.cons v vs)
/-- Evaluate map-literal entries, enforcing the map-key restriction. -/
def evalPairs : ExprPairList → Ctx → Except CelError ValuePairList
  | .nil, _ => .ok .nil
  | .cons k v ps, ctx =>
      match evalE k ctx with
      | .error er => .error er
      | .ok kv =>
          if validKey kv then
            match evalE v ctx with
            | .error er => .error er
            | .ok vv =>
                match evalPairs ps ctx with
                | .error er => .error er
                | .ok rest => .ok (.cons kv vv rest)
          else .error ⟨.invalidArgument, "Unsupported map key type"⟩
end

mutual
/-- Modelled from the spec: step 1 of the promotion algorithm, the scan of
the parsed tree for at least one Double value (a float literal node). -/
def exprHasDouble : Expr → Bool
  | .intLit _ => false
  | .uintLit _ => false
  | .doubleLit _ => true
  | .strLit _ => false
  | .bytesLit _ => false
  | .boolLit _ => false
  | .nullLit => false
  | .ident _ => false
  | .unaryNot e => exprHasDouble e
  | .andE a b => exprHasDouble a || exprHasDouble b
  | .orE a b => exprHasDouble a || exprHasDouble b
  | .ternary c t f => exprHasDouble c || (exprHasDouble t || exprHasDouble f)
  | .binop _ a b => exprHasDouble a || exprHasDouble b
  | .call _ args => argsHaveDouble args
  | .listE es => argsHaveDouble es
  | .mapE ps => pairsHaveDouble ps
  | .comp recv _ _ body => exprHasDouble recv || exprHasDouble body
/-- Scan of an expression sequence for a float literal node. -/
def argsHaveDouble : ExprList → Bool
  | .nil => false
  | .cons e es => exprHasDouble e || argsHaveDouble es
/-- Scan of map-literal entries for a float literal node. -/
def pairsHaveDouble : ExprPairList → Bool
  | .nil => false
  | .cons k v ps => exprHasDouble k || (exprHasDouble v || pairsHaveDouble ps)
end

/-- Modelled from the spec: step 1 of the promotion algorithm on the bound
context, the scan for a context variable bound to a float. -/
def ctxHasDouble (vars : List (String × Value)) : Bool :=
  vars.any fun p =>
    match p.2 with
    | .double _ => true
    | _ => false

mutual
/-- Modelled from the spec: step 3 of the promotion algorithm, the tree
rewrite turning every Integer literal node into a Double literal.  It
operates over tagged node variants, never over source text, so String,
Bytes, Boolean and Null nodes as well as List and Map node contents are
structurally left untouched regardless of digit-like appearance, and it
does not propagate into comprehension lambda bodies: a comprehension node
is left entirely unrewritten (the documented scope limitation). -/
def promoteExpr : Expr → Expr
  | .intLit n => .doubleLit (mkRat n 1)
  | .uintLit n => .uintLit n
  | .doubleLit q => .doubleLit q
  | .strLit s => .strLit s
  | .bytesLit b => .bytesLit b
  | .boolLit b => .boolLit b
  | .nullLit => .nullLit
  | .ident x => .ident x
  | .unaryNot e => .unaryNot (promoteExpr e)
  | .andE a b => .andE (promoteExpr a) (promoteExpr b)
  | .orE a b => .orE (promoteExpr a) (promoteExpr b)
  | .ternary c t f => .ternary (promoteExpr c) (promoteExpr t) (promoteExpr f)
  | .binop op a b => .binop op (promoteExpr a) (promoteExpr b)
  | .call f args => .call f (promoteArgs args)
  | .listE es => .listE es
  | .mapE ps => .mapE ps
  | .comp recv op v body => .comp recv op v body
/-- Promotion of call-argument sequences. -/
def promoteArgs : ExprList → ExprList
  | .nil => .nil
  | .cons e es => .cons (promoteExpr e) (promoteArgs es)
end

/-- Modelled from the spec: promotion of an Integer-valued context
variable to Double. -/
def promoteVal : Value → Value
  | .int n => .double (mkRat n 1)
  | v => v

/-- Promotion of the whole variable table; the function table is kept. -/
def promoteCtx (ctx : Ctx) : Ctx :=
  ⟨ctx.vars.map (fun p => (p.1, promoteVal p.2)), ctx.funcs⟩

/-- Modelled from the spec: the PYTHON/STRICT evaluation dialect flag. -/
inductive EvaluationMode where
  | python
  | strict
deriving DecidableEq

/-- Modelled from the spec: the mode attached when none is supplied. -/
def defaultMode : EvaluationMode := .python

/-- Modelled from the spec: the promotion decision, a pure function of the
parsed tree and the bound context - promotion happens exactly when a
Double exists in either. -/
def needsPromotion (e : Expr) (ctx : Ctx) : Bool :=
  exprHasDouble e || ctxHasDouble ctx.vars

/-- Modelled from the spec: steps 1-3 of the promotion algorithm; when no
Double exists anywhere, no rewriting is performed. -/
def applyPromotion (e : Expr) (ctx : Ctx) : Expr × Ctx :=
  if needsPromotion e ctx then (promoteExpr e, promoteCtx ctx) else (e, ctx)

/-- Modelled from the spec: the evaluate entry point over a parsed tree
(parsing itself belongs to the external collaborator).  PYTHON mode runs
the Promotion Engine first; STRICT mode performs no rewriting. -/
def evaluate (e : Expr) (ctx : Ctx) (mode : EvaluationMode) :
    Except CelError Value :=
  match mode with
  | .python => evalE (applyPromotion e ctx).1 (applyPromotion e ctx).2
  | .strict => evalE e ctx

/-- Evaluation with the mode defaulted, as when no mode is supplied. -/
def evaluateDefault (e : Expr) (ctx : Ctx) : Except CelError Value :=
  evaluate e ctx defaultMode

/-- Modelled from the spec: a Program is the immutable pair of source text
and opaque parsed handle, created once by compile and carrying no per-call
mutable state. -/
structure Program where
  source : String
  ast : Expr

/-- Modelled from the spec: compile stores the source together with the
parse handle the external collaborator produced for it. -/
def compile (source : String) (parsed : Expr) : Program :=
  ⟨source, parsed⟩

/-- Modelled from the spec: execute binds a context, selects the mode,
applies the Promotion Engine when the mode is PYTHON, and delegates
evaluation of the stored tree; each call depends only on the immutable
tree and the supplied context. -/
def Program.execute (p : Program) (ctx : Ctx) (mode : EvaluationMode) :
    Except CelError Value :=
  match mode with
  | .python => evalE (applyPromotion p.ast ctx).1 (applyPromotion p.ast ctx).2
  | .strict => evalE p.ast ctx

/-- Modelled from the spec: what the external parser collaborator can hand
back across the boundary - a parse handle, a structured syntax error such
as an unterminated string literal, a compile/binding failure such as an
unmatched parenthesis surviving tokenization, or a native fault (panic)
escaping the interpreter on degenerate input such as a quote run. -/
inductive ParseOutcome where
  | ok (e : Expr)
  | syntaxError (msg : String)
  | compileError (msg : String)
  | nativeFault (msg : String)

/-- Modelled from the spec: the interpreter-boundary containment of the
Error Taxonomy Translator.  Structured syntax errors and caught native
faults are reported as ParseFailure, compile/binding failures as the
distinct CompileFailure kind; nothing escapes uncontrolled. -/
def parseBoundary : ParseOutcome → Except CelError Expr
  | .ok e => .ok e
  | .syntaxError _ => .error ⟨.parseFailure, "Failed to parse expression"⟩
  | .compileError _ => .error ⟨.compileFailure, "Failed to compile expression"⟩
  | .nativeFault _ => .error ⟨.parseFailure, "Failed to parse expression"⟩

/-- Modelled from the spec: compile routes the collaborator outcome for
the given source through the boundary translator and wraps a successful
parse into a Program. -/
def compileSource (source : String) (outcome : ParseOutcome) :
    Except CelError Program :=
  match parseBoundary outcome with
  | .ok ast => .ok ⟨source, ast⟩
  | .error er => .error er

/-- An unparenthesized unary-negation source fragment: a run of bang
tokens followed by the parse of the operand. -/
structure BangSource where
  bangs : Nat
  operand : Expr

/-- Modelled from the spec: the external parser collaborator (out of core
scope) as the repository documents it - a run of one or more consecutive
unary bang tokens collapses into a single logical-not node (the recorded
upstream parser defect), while explicitly parenthesized negations produce
properly nested nodes. -/
def parseBangs : BangSource → Expr
  | ⟨0, e⟩ => e
  | ⟨_ + 1, e⟩ => .unaryNot e

/-- The parse of the source 1 + 2.5. -/
def exprOnePlusTwoPointFive : Expr :=
  .binop .add (.intLit 1) (.doubleLit (mkRat 5 2))

/-- The parse of the source 5 + 3. -/
def exprFivePlusThree : Expr :=
  .binop .add (.intLit 5) (.intLit 3)

/-- A context binding value to the Double 0.4. -/
def ctxPointFour : Ctx := ⟨[("value", .double (mkRat 2 5))], []⟩

/-- The parse of the comprehension source with mixed Int/Double
arithmetic inside the lambda body: [1, 2, 3].map(x, x * 2.0). -/
def exprMapMixed : Expr :=
  .comp (.listE (.cons (.intLit 1) (.cons (.intLit 2) (.cons (.intLit 3) .nil))))
    .mapC "x" (.binop .mul (.ident "x") (.doubleLit (mkRat 2 1)))

/-- The parse of the source price * quantity. -/
def exprPriceTimesQuantity : Expr :=
  .binop .mul (.ident "price") (.ident "quantity")

/-- Context binding price to 10 and quantity to 5. -/
def ctxPrice10Qty5 : Ctx := ⟨[("price", .int 10), ("quantity", .int 5)], []⟩

/-- Context binding price to 25 and quantity to 4. -/
def ctxPrice25Qty4 : Ctx := ⟨[("price", .int 25), ("quantity", .int 4)], []⟩

/-- A modelled host callable taking exactly two integer arguments; any
other argument list makes its host runtime raise, the way a fixed-arity
host function raises on an arity mismatch. -/
def twoArgAdd : HostFn := fun args =>
  match args with
  | .cons (.int a) (.cons (.int b) .nil) => .ok (.int (a + b))
  | _ => .error "takes exactly 2 arguments"

/-- The clause of the evaluator for a logical-not node, as an equation. -/
theorem evalE_unaryNot (e : Expr) (ctx : Ctx) :
    evalE (.unaryNot e) ctx =
      match evalE e ctx with
      | .ok v => .ok (.bool (!truthy v))
      | .error er => .error er := rfl

/-- Scanning a logical-not node sees exactly its operand, so the
promotion decision for a negation matches that of its operand. -/
theorem needsPromotion_unaryNot (e : Expr) (ctx : Ctx) :
    needsPromotion (.unaryNot e) ctx = needsPromotion e ctx := rfl

/-- C1: a string-literal expression evaluates to the unchanged string in
both modes under every context (in particular contexts holding a Double,
which trigger promotion); the promotion rewrite structurally preserves
String, Bytes, Boolean, Null, List and Map nodes regardless of digit-like
content; concretely, with context value = 0.4 the promotion scan fires and
the expression "123" still evaluates to the string "123" in both modes. -/
theorem c1_string_literal_invariance :
    (∀ (s : String) (ctx : Ctx) (m : EvaluationMode),
        evaluate (.strLit s) ctx m = .ok (.str s))
    ∧ (∀ (s : String), promoteExpr (.strLit s) = .strLit s)
    ∧ (∀ (b : List Nat), promoteExpr (.bytesLit b) = .bytesLit b)
    ∧ (∀ (b : Bool), promoteExpr (.boolLit b) = .boolLit b)
    ∧ promoteExpr .nullLit = .nullLit
    ∧ (∀ (es : ExprList), promoteExpr (.listE es) = .listE es)
    ∧ (∀ (ps : ExprPairList), promoteExpr (.mapE ps) = .mapE ps)
    ∧ needsPromotion (.strLit "123") ctxPointFour = true
    ∧ evaluate (.strLit "123") ctxPointFour .python = .ok (.str "123")
    ∧ evaluate (.strLit "123") ctxPointFour .strict = .ok (.str "123") := by
  refine ⟨?_, fun s => rfl, fun b => rfl, fun b => rfl, rfl, fun es => rfl,
    fun ps => rfl, rfl, rfl, rfl⟩
  intro s ctx m
  cases m with
  | strict => rfl
  | python =>
      show evalE (applyPromotion (.strLit s) ctx).1
        (applyPromotion (.strLit s) ctx).2 = _
      simp only [applyPromotion]
      by_cases hc : needsPromotion (.strLit s) ctx = true
      · simp [hc, promoteExpr, evalE]
      · simp [hc, evalE]

/-- C2: the source 1 + 2.5 with no context evaluates to the Double 3.5
under the default mode, the default mode is PYTHON, and the same source
under STRICT mode fails with a TypeMismatch. -/
theorem c2_mode_divergence_and_default :
    evaluateDefault exprOnePlusTwoPointFive Ctx.empty
      = .ok (.double (mkRat 7 2))
    ∧ defaultMode = .python
    ∧ evaluate exprOnePlusTwoPointFive Ctx.empty .strict
      = .error ⟨.typeMismatch, "Unsupported addition operation"⟩ := by
  refine ⟨?_, rfl, rfl⟩
  show Except.ok (Value.double (mkRat 1 1 + mkRat 5 2)) = _
  rw [Rat.mkRat_eq_divInt, Rat.mkRat_eq_divInt, Rat.mkRat_eq_divInt]
  norm_num [Rat.divInt_eq_div]

/-- C3: when neither the parsed tree nor the bound context holds a Double,
PYTHON mode performs no rewriting at all and agrees with STRICT mode, and
5 + 3 evaluates to the integer 8, not the double 8.0, under PYTHON. -/
theorem c3_pure_int_non_promotion :
    (∀ (e : Expr) (ctx : Ctx), needsPromotion e ctx = false →
        applyPromotion e ctx = (e, ctx))
    ∧ (∀ (e : Expr) (ctx : Ctx), needsPromotion e ctx = false →
        evaluate e ctx .python = evaluate e ctx .strict)
    ∧ evaluate exprFivePlusThree Ctx.empty .python = .ok (.int 8) := by
  refine ⟨fun e ctx h => ?_, fun e ctx h => ?_, rfl⟩
  · simp [applyPromotion, h]
  · show evalE (applyPromotion e ctx).1 (applyPromotion e ctx).2 = evalE e ctx
    simp [applyPromotion, h]

/-- C3 witness: on the concrete source 5 + 3 with the empty context the
promotion scan is negative, so no rewriting happens and both modes give
the same evaluation. -/
theorem c3_pure_int_non_promotion_witness :
    applyPromotion exprFivePlusThree Ctx.empty = (exprFivePlusThree, Ctx.empty)
    ∧ evaluate exprFivePlusThree Ctx.empty .python
      = evaluate exprFivePlusThree Ctx.empty .strict :=
  ⟨c3_pure_int_non_promotion.1 exprFivePlusThree Ctx.empty rfl,
   c3_pure_int_non_promotion.2.1 exprFivePlusThree Ctx.empty rfl⟩

/-- C4: executing a compiled Program equals direct evaluation of the same
parsed source under the same context and mode, for every source, tree,
context and mode; concretely, the Program for price * quantity executes
to 50 with price 10 and quantity 5 and then to 100 with price 25 and
quantity 4, independent of the earlier call. -/
theorem c4_compile_execute_equivalence :
    (∀ (src : String) (ast : Expr) (ctx : Ctx) (m : EvaluationMode),
        (compile src ast).execute ctx m = evaluate ast ctx m)
    ∧ (compile "price * quantity" exprPriceTimesQuantity).execute
        ctxPrice10Qty5 .python = .ok (.int 50)
    ∧ (compile "price * quantity" exprPriceTimesQuantity).execute
        ctxPrice25Qty4 .python = .ok (.int 100) :=
  ⟨fun _ ast ctx m => by cases m <;> rfl, rfl, rfl⟩

/-- C5 counterexample: the malformed source with an unmatched parenthesis
is a compile/binding failure, and the boundary reports it as a
CompileFailure with message "Failed to compile expression" - not as the
ParseFailure with message "Failed to parse expression" that the claim
asserts for every malformed source. -/
theorem c5_counterexample_unmatched_paren :
    compileSource "(1 + 2" (.compileError "Unmatched parenthesis")
      = .error ⟨.compileFailure, "Failed to compile expression"⟩
    ∧ compileSource "(1 + 2" (.compileError "Unmatched parenthesis")
      ≠ .error ⟨.parseFailure, "Failed to parse expression"⟩ := by
  refine ⟨rfl, fun h => ?_⟩
  have h1 : (⟨.compileFailure, "Failed to compile expression"⟩ : CelError)
      = ⟨.parseFailure, "Failed to parse expression"⟩ := by
    injection h
  exact ErrKind.noConfusion (congrArg CelError.kind h1)

/-- C5 amended: every collaborator outcome for a malformed source is
contained at the boundary as an error of the taxonomy - never an
uncontrolled escape: structured syntax errors and caught native faults
(panics on degenerate quote sequences) are reported as ParseFailure with
message "Failed to parse expression", while compile/binding failures such
as an unmatched parenthesis are reported as CompileFailure with message
"Failed to compile expression". -/
theorem c5_malformed_source_containment_amended :
    (∀ (src : String) (outcome : ParseOutcome),
        (∀ (e : Expr), outcome ≠ .ok e) →
        ∃ er : CelError, compileSource src outcome = .error er
          ∧ (er.kind = .parseFailure ∨ er.kind = .compileFailure))
    ∧ (∀ (src msg : String),
        compileSource src (.syntaxError msg)
          = .error ⟨.parseFailure, "Failed to parse expression"⟩)
    ∧ (∀ (src msg : String),
        compileSource src (.nativeFault msg)
          = .error ⟨.parseFailure, "Failed to parse expression"⟩)
    ∧ (∀ (src msg : String),
        compileSource src (.compileError msg)
          = .error ⟨.compileFailure, "Failed to compile expression"⟩) := by
  refine ⟨?_, fun src msg => rfl, fun src msg => rfl, fun src msg => rfl⟩
  intro src outcome h
  cases outcome with
  | ok e => exact absurd rfl (h e)
  | syntaxError m => exact ⟨_, rfl, Or.inl rfl⟩
  | compileError m => exact ⟨_, rfl, Or.inr rfl⟩
  | nativeFault m => exact ⟨_, rfl, Or.inl rfl⟩

/-- C5 witness: a native fault from a degenerate quote sequence is
contained and reported within the taxonomy. -/
theorem c5_malformed_source_containment_amended_witness :
    ∃ er : CelError,
      compileSource "timestamp(" (.nativeFault "interpreter fault")
        = .error er
      ∧ (er.kind = .parseFailure ∨ er.kind = .compileFailure) :=
  c5_malformed_source_containment_amended.1 "timestamp("
    (.nativeFault "interpreter fault") (fun _ h => ParseOutcome.noConfusion h)

/-- C6: whenever a registered callable raises, the dispatcher re-raises a
single FunctionError whose message embeds the registered name and the
original message; the same holds through full evaluation of a call
expression in either mode; and an arity-mismatched call of a two-argument
callable surfaces through this same FunctionError path. -/
theorem c6_function_exception_normalization :
    (∀ (name : String) (fn : HostFn) (args : ValueList) (msg : String),
        fn args = .error msg →
        dispatch name fn args = .error ⟨.functionError, funErrMsg name msg⟩)
    ∧ (∀ (fn : HostFn) (msg : String) (m : EvaluationMode),
        fn (.cons (.int 1) .nil) = .error msg →
        evaluate (.call "f" (.cons (.intLit 1) .nil)) ⟨[], [("f", fn)]⟩ m
          = .error ⟨.functionError, funErrMsg "f" msg⟩)
    ∧ evaluate (.call "g" (.cons (.intLit 1) .nil)) ⟨[], [("g", twoArgAdd)]⟩
        .python
        = .error ⟨.functionError, funErrMsg "g" "takes exactly 2 arguments"⟩ := by
  refine ⟨fun name fn args msg h => ?_, fun fn msg m h => ?_, rfl⟩
  · unfold dispatch
    rw [h]
  · have e1 : evaluate (.call "f" (.cons (.intLit 1) .nil)) ⟨[], [("f", fn)]⟩ m
        = evalE (.call "f" (.cons (.intLit 1) .nil)) ⟨[], [("f", fn)]⟩ := by
      cases m <;> rfl
    rw [e1]
    show dispatch "f" fn (.cons (.int 1) .nil) = _
    unfold dispatch
    rw [h]

/-- C6 witness: a callable registered as f that raises boom when called
with the single argument 1 makes the call expression f(1) fail with the
FunctionError message embedding f and boom. -/
theorem c6_function_exception_normalization_witness :
    evaluate (.call "f" (.cons (.intLit 1) .nil))
        ⟨[], [("f", fun _ => Except.error "boom")]⟩ .python
      = .error ⟨.functionError, funErrMsg "f" "boom"⟩ :=
  c6_function_exception_normalization.2.1
    (fun _ => Except.error "boom") "boom" .python rfl

/-- C7 counterexample: the boolean operator ! applied to the non-boolean
operand 42 does not fail with a TypeMismatch - !42 evaluates successfully
to false in both modes, refuting the claim that it raises. -/
theorem c7_counterexample_not_42 :
    evaluate (.unaryNot (.intLit 42)) Ctx.empty defaultMode = .ok (.bool false)
    ∧ evaluate (.unaryNot (.intLit 42)) Ctx.empty .strict = .ok (.bool false) :=
  ⟨rfl, rfl⟩

/-- C7 amended: the string-plus-integer source and the mixed
signed/unsigned source each fail with a TypeMismatch, while !42 does not
fail - the logical-not operator coerces its operand by truthiness and
returns false. -/
theorem c7_type_mismatch_triggers_amended :
    evaluate (.binop .add (.strLit "x") (.intLit 42)) Ctx.empty defaultMode
      = .error ⟨.typeMismatch, "Unsupported addition operation"⟩
    ∧ evaluate (.binop .add (.intLit 1) (.uintLit 2)) Ctx.empty defaultMode
      = .error ⟨.typeMismatch, "Cannot mix signed and unsigned integers"⟩
    ∧ evaluate (.unaryNot (.intLit 42)) Ctx.empty defaultMode
      = .ok (.bool false) :=
  ⟨rfl, rfl, rfl⟩

/-- C8: the promotion rewrite leaves every comprehension node entirely
unrewritten, and the comprehension [1, 2, 3].map(x, x * 2.0) with mixed
Int/Double arithmetic inside the lambda body fails with the same
TypeMismatch in PYTHON mode as in STRICT mode. -/
theorem c8_comprehension_promotion_scope :
    (∀ (recv : Expr) (op : CompOp) (v : String) (body : Expr),
        promoteExpr (.comp recv op v body) = .comp recv op v body)
    ∧ evaluate exprMapMixed Ctx.empty .python
      = .error ⟨.typeMismatch, "Unsupported multiplication operation"⟩
    ∧ evaluate exprMapMixed Ctx.empty .strict
      = .error ⟨.typeMismatch, "Unsupported multiplication operation"⟩ :=
  ⟨fun _ _ _ _ => rfl, rfl, rfl⟩

/-- C9: with the left operand false, a conjunction evaluates to false
without invoking the registered callable on the right - even one that
always raises - and with the left operand true a disjunction evaluates to
true the same way; by contrast a conjunction whose left operand is true
does invoke the callable, surfacing its failure. -/
theorem c9_short_circuit_evaluation :
    ∀ (fn : HostFn) (msg : String) (m : EvaluationMode),
      (∀ (args : ValueList), fn args = .error msg) →
      evaluate (.andE (.boolLit false) (.call "f" .nil)) ⟨[], [("f", fn)]⟩ m
        = .ok (.bool false)
      ∧ evaluate (.orE (.boolLit true) (.call "f" .nil)) ⟨[], [("f", fn)]⟩ m
        = .ok (.bool true)
      ∧ evaluate (.andE (.boolLit true) (.call "f" .nil)) ⟨[], [("f", fn)]⟩ m
        = .error ⟨.functionError, funErrMsg "f" msg⟩ := by
  intro fn msg m h
  refine ⟨by cases m <;> rfl, by cases m <;> rfl, ?_⟩
  have e1 : evaluate (.andE (.boolLit true) (.call "f" .nil)) ⟨[], [("f", fn)]⟩ m
      = evalE (.andE (.boolLit true) (.call "f" .nil)) ⟨[], [("f", fn)]⟩ := by
    cases m <;> rfl
  rw [e1]
  show (match dispatch "f" fn .nil with
        | .ok vb => Except.ok (Value.bool (truthy vb))
        | .error er => .error er) = _
  unfold dispatch
  rw [h .nil]

/-- C9 witness: an always-raising callable bound as f leaves
false AND f() at false and true OR f() at true, while true AND f()
surfaces the FunctionError. -/
theorem c9_short_circuit_evaluation_witness :
    evaluate (.andE (.boolLit false) (.call "f" .nil))
        ⟨[], [("f", fun _ => Except.error "boom")]⟩ .python = .ok (.bool false)
    ∧ evaluate (.orE (.boolLit true) (.call "f" .nil))
        ⟨[], [("f", fun _ => Except.error "boom")]⟩ .python = .ok (.bool true)
    ∧ evaluate (.andE (.boolLit true) (.call "f" .nil))
        ⟨[], [("f", fun _ => Except.error "boom")]⟩ .python
      = .error ⟨.functionError, funErrMsg "f" "boom"⟩ :=
  c9_short_circuit_evaluation (fun _ => Except.error "boom") "boom" .python
    (fun _ => rfl)

/-- C10: an unparenthesized run of two bang tokens parses to the same tree
as a single bang and therefore evaluates identically to it in every
context and mode, while the parenthesized nested form evaluates to the
true double negation - the truthiness of the operand; concretely the
source !!true evaluates to false while !(!true) evaluates to true. -/
theorem c10_double_negation_anomaly :
    (∀ (e : Expr) (ctx : Ctx) (m : EvaluationMode),
        evaluate (parseBangs ⟨2, e⟩) ctx m = evaluate (parseBangs ⟨1, e⟩) ctx m)
    ∧ (∀ (e : Expr) (ctx : Ctx) (m : EvaluationMode) (v : Value),
        evaluate e ctx m = .ok v →
        evaluate (.unaryNot (.unaryNot e)) ctx m = .ok (.bool (truthy v)))
    ∧ evaluate (parseBangs ⟨2, .boolLit true⟩) Ctx.empty defaultMode
      = .ok (.bool false)
    ∧ evaluate (.unaryNot (.unaryNot (.boolLit true))) Ctx.empty defaultMode
      = .ok (.bool true) := by
  refine ⟨fun e ctx m => rfl, ?_, rfl, rfl⟩
  intro e ctx m v h
  cases m with
  | strict =>
      have h2 : evalE e ctx = .ok v := h
      show evalE (.unaryNot (.unaryNot e)) ctx = _
      rw [evalE_unaryNot, evalE_unaryNot, h2]
      simp [truthy, Bool.not_not]
  | python =>
      have h2 : evalE (applyPromotion e ctx).1 (applyPromotion e ctx).2
          = .ok v := h
      show evalE (applyPromotion (.unaryNot (.unaryNot e)) ctx).1
        (applyPromotion (.unaryNot (.unaryNot e)) ctx).2 = _
      simp only [applyPromotion] at h2 ⊢
      rw [show needsPromotion (.unaryNot (.unaryNot e)) ctx
        = needsPromotion e ctx from rfl]
      by_cases hc : needsPromotion e ctx = true
      · simp only [hc, if_pos] at h2 ⊢
        show evalE (.unaryNot (.unaryNot (promoteExpr e))) (promoteCtx ctx) = _
        rw [evalE_unaryNot, evalE_unaryNot, h2]
        simp [truthy, Bool.not_not]
      · simp only [Bool.not_eq_true] at hc
        simp only [hc, Bool.false_eq_true, if_neg, not_false_iff] at h2 ⊢
        show evalE (.unaryNot (.unaryNot e)) ctx = _
        rw [evalE_unaryNot, evalE_unaryNot, h2]
        simp [truthy, Bool.not_not]

/-- C10 witness: instantiating the nested-negation statement at the
literal true recovers that !(!true) evaluates to true. -/
theorem c10_double_negation_anomaly_witness :
    evaluate (.unaryNot (.unaryNot (.boolLit true))) Ctx.empty .python
      = .ok (.bool true) :=
  c10_double_negation_anomaly.2.1 (.boolLit true) Ctx.empty .python
    (.bool true) rfl

end CelSpec
